import Mathlib

/-!
# LoComm — verification of the packet protocol and credential subsystem

Shallow embedding of the LoComm field-radio communication core:

* `src/src/crypto/security_protocol.cpp` — Z85 key transcription,
  password login/logout, group-key wrap/unwrap, D2D AEAD framing;
* `src/src/esp/LoCommLib.cpp` — the `crc_16` frame checksum;
* `src/src/esp/LoCommAPI.cpp` — frame validation and message dispatch
  (`handle_message_from_computer`);
* `src/src/esp/LoCommBuildPacket.cpp` — the acknowledgement builders.

Bytes are modelled as `Nat` with explicit bounds (`< 256`) and explicit
truncation (`% 65536`, `% 4294967296`) where the C code truncates on
assignment to a fixed-width integer.  External collaborators (mbedtls
SHA-256, PBKDF2, AES-GCM, the hardware RNG) are passed in as function
parameters; their contracts (output lengths, AEAD round-trip) appear as
hypotheses of the theorems that need them.
-/

namespace LoComm

/-! ## Z85 transcription alphabet (security_protocol.cpp, lines 34-59)

`Z85_CHARS` is the byte sequence of the C string literal
`"0123456789abcdefghijklmnopqrstuvwxyzABCDEFGHIJKLMNOPQRSTUVWXYZ.-:+=^!/*?&<>()[]\x7b\x7d@%$#"`. -/
def Z85_CHARS : List Nat :=
  [48, 49, 50, 51, 52, 53, 54, 55, 56, 57,
   97, 98, 99, 100, 101, 102, 103, 104, 105, 106, 107, 108, 109, 110,
   111, 112, 113, 114, 115, 116, 117, 118, 119, 120, 121, 122,
   65, 66, 67, 68, 69, 70, 71, 72, 73, 74, 75, 76, 77, 78,
   79, 80, 81, 82, 83, 84, 85, 86, 87, 88, 89, 90,
   46, 45, 58, 43, 61, 94, 33, 47, 42, 63, 38, 60, 62, 40, 41,
   91, 93, 123, 125, 64, 37, 36, 35]

/-- `strchr(Z85_CHARS, c)`: the index of byte `c` in the alphabet, or
`none` when `c` does not occur (for the nonzero bytes fed to it by
`sec_log_key`; a NUL byte can never reach it because the caller checks
`strlen == 20` first). -/
def z85_index (c : Nat) : Option Nat :=
  Z85_CHARS.indexOf? c

/-- The value accumulator of `_z85_encode_block`:
`val = (src[0] << 24) | (src[1] << 16) | (src[2] << 8) | src[3]`. -/
def z85_block_val (src : List Nat) : Nat :=
  (src.getD 0 0) <<< 24 ||| (src.getD 1 0) <<< 16 ||| (src.getD 2 0) <<< 8 ||| src.getD 3 0

/-- The digit-extraction loop of `_z85_encode_block`: the loop runs `i`
from 4 down to 0 storing `val % 85` and dividing, so digit lists are
built most-significant first. -/
def z85_digits : Nat → Nat → List Nat
  | 0, _ => []
  | n + 1, val => z85_digits n (val / 85) ++ [val % 85]

/-- `_z85_encode_block` (security_protocol.cpp lines 38-44): 4 bytes to
5 alphabet characters. -/
def z85_encode_block (src : List Nat) : List Nat :=
  (z85_digits 5 (z85_block_val src)).map (fun d => Z85_CHARS.getD d 0)

/-- The accumulation loop of `_z85_decode_block`:
`val = val * 85 + (found - Z85_CHARS)` on a `uint32_t`, hence the
`% 2^32` truncation. -/
def z85_decode_loop : List Nat → Nat → Option Nat
  | [], val => some val
  | c :: rest, val =>
    match z85_index c with
    | none => none
    | some d => z85_decode_loop rest ((val * 85 + d) % 4294967296)

/-- `_z85_decode_block` (security_protocol.cpp lines 47-59): 5 characters
back to 4 bytes, failing on any character outside the alphabet. -/
def z85_decode_block (src : List Nat) : Option (List Nat) :=
  (z85_decode_loop src 0).map (fun val =>
    [(val >>> 24) &&& 0xFF, (val >>> 16) &&& 0xFF, (val >>> 8) &&& 0xFF, val &&& 0xFF])

/-- The 4-block encode loop shared by `sec_generate_key` /
`sec_display_key`: 16 key bytes to a 20-character string. -/
def z85_encode16 (k : List Nat) : List Nat :=
  z85_encode_block ((k.drop 0).take 4) ++ z85_encode_block ((k.drop 4).take 4) ++
    z85_encode_block ((k.drop 8).take 4) ++ z85_encode_block ((k.drop 12).take 4)

/-- The 4-block decode loop of `sec_log_key`: 20 characters to 16 key
bytes, failing if any block fails. -/
def z85_decode20 (s : List Nat) : Option (List Nat) :=
  match z85_decode_block ((s.drop 0).take 5) with
  | none => none
  | some b0 =>
    match z85_decode_block ((s.drop 5).take 5) with
    | none => none
    | some b1 =>
      match z85_decode_block ((s.drop 10).take 5) with
      | none => none
      | some b2 =>
        match z85_decode_block ((s.drop 15).take 5) with
        | none => none
        | some b3 => some (b0 ++ b1 ++ b2 ++ b3)

/-- A byte list whose elements are all below 256. -/
def AllBytes (l : List Nat) : Prop := ∀ b ∈ l, b < 256

instance (l : List Nat) : Decidable (AllBytes l) := by
  unfold AllBytes; infer_instance

/-! ## Credential store, session manager and secure channel
(security_protocol.cpp)

The module's global state is collected into one record.  The mbedtls
primitives are passed in as parameters:

* `HashFn` — `_sec_hash_password` core, `SHA-256(salt ++ password)`;
* `KdfFn` — `_sec_derive_key` core, `PBKDF2-HMAC-SHA256(password, salt, 10000, 32)`;
* `GcmEnc` — `mbedtls_gcm_crypt_and_tag(ENCRYPT)`, `(key, iv, pt) ↦ (ct, tag)`
  (total: the ciphertext has the plaintext's length, the tag the requested
  tag length — stated as hypotheses where a theorem needs them);
* `GcmDec` — `mbedtls_gcm_auth_decrypt`, `(key, iv, ct, tag) ↦ some pt` on
  success and `none` on authentication failure (mbedtls zeroizes the output
  buffer in that case). -/

def HashFn : Type := List Nat → List Nat → List Nat

def KdfFn : Type := List Nat → List Nat → List Nat

def GcmEnc : Type := List Nat → List Nat → List Nat → List Nat × List Nat

def GcmDec : Type := List Nat → List Nat → List Nat → List Nat → Option (List Nat)

/-- The global state of `security_protocol.cpp`: the session flags, the
persistent-storage mirrors, the RAM-only secrets, and the NVM contents
behind the `Preferences` collaborator (`sec_salt` / `sec_hash` /
`sec_d2d_key`). -/
structure SecState where
  is_initialized : Bool
  is_logged_in : Bool
  is_paired : Bool
  password_hash : List Nat
  password_salt : List Nat
  encrypted_d2d_key : List Nat
  decrypted_d2d_key : List Nat
  wrapping_key : List Nat
  nvm_salt : List Nat
  nvm_hash : List Nat
  nvm_d2d_key : Option (List Nat)
deriving Repr, DecidableEq

/-- `_sec_encrypt_and_save_d2d_key` (security_protocol.cpp lines 91-117):
AEAD-encrypt the RAM D2D key under the RAM wrapping key, with the first
12 bytes of the password salt as IV, store the 32-byte `ct ++ tag` blob
in NVM and mark the node paired.  The GCM oracle is total, so the
`ret != 0` branch does not arise. -/
def sec_encrypt_and_save_d2d_key (genc : GcmEnc) (st : SecState) : Bool × SecState :=
  let ct_tag := genc st.wrapping_key (st.password_salt.take 12) st.decrypted_d2d_key
  let blob := ct_tag.1 ++ ct_tag.2
  (true, { st with encrypted_d2d_key := blob, nvm_d2d_key := some blob, is_paired := true })

/-- `sec_login` (security_protocol.cpp lines 209-244). -/
def sec_login (hashFn : HashFn) (kdf : KdfFn) (gdec : GcmDec) (st : SecState)
    (password : List Nat) : Bool × SecState :=
  if !st.is_initialized then (false, st)
  else
    let temp_hash := hashFn st.password_salt password
    if temp_hash ≠ st.password_hash then (false, st)
    else
      let wk := kdf password st.password_salt
      if st.is_paired then
        match gdec wk (st.password_salt.take 12) (st.encrypted_d2d_key.take 16)
            (st.encrypted_d2d_key.drop 16) with
        | some ptkey =>
          (true, { st with wrapping_key := wk, decrypted_d2d_key := ptkey,
                           is_logged_in := true })
        | none =>
          (false, { st with wrapping_key := List.replicate 32 0,
                            decrypted_d2d_key := List.replicate 16 0 })
      else (true, { st with wrapping_key := wk, is_logged_in := true })

/-- `sec_logout` (security_protocol.cpp lines 246-250). -/
def sec_logout (st : SecState) : SecState :=
  { st with decrypted_d2d_key := List.replicate 16 0,
            wrapping_key := List.replicate 32 0,
            is_logged_in := false }

/-- `sec_generate_key` (security_protocol.cpp lines 257-271).  `randKey`
is the 16-byte draw from `mbedtls_ctr_drbg_random`. -/
def sec_generate_key (genc : GcmEnc) (randKey : List Nat) (st : SecState)
    (bufferSize : Nat) : Option (List Nat) × SecState :=
  if !st.is_logged_in || bufferSize ≤ 20 then (none, st)
  else
    let st1 := { st with decrypted_d2d_key := randKey }
    let out := z85_encode16 randKey
    let save := sec_encrypt_and_save_d2d_key genc st1
    (if save.1 then some out else none, save.2)

/-- `sec_log_key` (security_protocol.cpp lines 273-286).  A failing block
decode clears the 16-byte RAM key with `memset(..., 0, 16)` before
returning false; the blocks decoded before the failing one are
overwritten by that same memset, so only the all-blocks-succeed case
keeps the decoded bytes. -/
def sec_log_key (genc : GcmEnc) (st : SecState) (input : List Nat) : Bool × SecState :=
  if !st.is_logged_in || input.length ≠ 20 then (false, st)
  else
    match z85_decode20 input with
    | none => (false, { st with decrypted_d2d_key := List.replicate 16 0 })
    | some key => sec_encrypt_and_save_d2d_key genc { st with decrypted_d2d_key := key }

/-- `sec_display_key` (security_protocol.cpp lines 288-296). -/
def sec_display_key (st : SecState) (bufferSize : Nat) : Option (List Nat) :=
  if !st.is_logged_in || !st.is_paired || bufferSize ≤ 20 then none
  else some (z85_encode16 st.decrypted_d2d_key)

/-- The nonce width of the D2D wire format (the 12-byte GCM IV). -/
def IV_LEN : Nat := 12

/-- The (truncated) authentication-tag width of the D2D wire format. -/
def TAG_LEN : Nat := 8

/-- The fixed overhead of `sec_encryptD2DMessage`: the literal `20`
(`12 IV + 8 Tag`, per the source comment) appearing in both
`sec_encryptD2DMessage` and `sec_decryptD2DMessage`. -/
def D2D_OVERHEAD : Nat := IV_LEN + TAG_LEN

/-- `sec_encryptD2DMessage` (security_protocol.cpp lines 310-336).  `iv`
is the 12-byte draw from `mbedtls_ctr_drbg_random`; on success the
output buffer holds `[IV (12)] [Ciphertext (N)] [Tag (8)]` and
`*ciphertextLen = 12 + plaintextLen + 8`. -/
def sec_encryptD2DMessage (genc : GcmEnc) (iv : List Nat) (st : SecState)
    (plaintext : List Nat) (bufferSize : Nat) : Option (List Nat) :=
  if !st.is_logged_in || !st.is_paired then none
  else if bufferSize < plaintext.length + D2D_OVERHEAD then none
  else
    let ct_tag := genc st.decrypted_d2d_key iv plaintext
    some (iv ++ ct_tag.1 ++ ct_tag.2)

/-- `sec_decryptD2DMessage` (security_protocol.cpp lines 338-361).  The
`return false` paths produce no plaintext (`none`); on the
authentication-failure path mbedtls zeroizes the output buffer, so no
plaintext escapes there either. -/
def sec_decryptD2DMessage (gdec : GcmDec) (st : SecState) (ciphertext : List Nat)
    (bufferSize : Nat) : Option (List Nat) :=
  if !st.is_logged_in || !st.is_paired then none
  else if ciphertext.length < D2D_OVERHEAD then none
  else
    let dataLen := ciphertext.length - D2D_OVERHEAD
    if bufferSize < dataLen then none
    else gdec st.decrypted_d2d_key (ciphertext.take IV_LEN)
      ((ciphertext.drop IV_LEN).take dataLen) (ciphertext.drop (IV_LEN + dataLen))

/-! ## The frame checksum `crc_16` (LoCommLib.cpp lines 40-52)

and its reference definition: the most-significant-bit-first shift
register with polynomial 0x1021, initial value 0x0000 and no final XOR,
fed the message bit stream bit by bit. -/

/-- One round of the inner loop of `crc_16`:
`if (crc & 0x8000) crc = (crc << 1) ^ 0x1021; else crc <<= 1;` on a
`uint16_t`. -/
def crc16_round (crc : Nat) : Nat :=
  if crc &&& 0x8000 ≠ 0 then ((crc <<< 1) ^^^ 0x1021) % 65536 else (crc <<< 1) % 65536

/-- One iteration of the outer loop of `crc_16`:
`crc ^= (uint16_t)data[i] << 8;` followed by the 8 inner rounds. -/
def crc16_byte_step (crc b : Nat) : Nat :=
  crc16_round^[8] ((crc ^^^ b <<< 8) % 65536)

/-- `crc_16` (LoCommLib.cpp lines 40-52). -/
def crc_16 (data : List Nat) : Nat :=
  data.foldl crc16_byte_step 0x0000

/-- One step of the reference shift register, consuming one message bit
(most significant first): if the register's top bit differs from the
incoming bit, shift and reduce by the polynomial, else just shift. -/
def crc16_ref_step (crc : Nat) (bit : Bool) : Nat :=
  if (crc.testBit 15) != bit then ((crc <<< 1) ^^^ 0x1021) % 65536 else (crc <<< 1) % 65536

/-- The bits of one byte, most significant first. -/
def byte_bits_msb (b : Nat) : List Bool :=
  [b.testBit 7, b.testBit 6, b.testBit 5, b.testBit 4,
   b.testBit 3, b.testBit 2, b.testBit 1, b.testBit 0]

/-- Modelled from the spec: the reference definition of the checksum, "a
16-bit CRC using polynomial 0x1021, initial value 0x0000,
most-significant-bit-first, no final XOR" — the textbook bit-serial
shift register run over the message's bit stream. -/
def crc16_ref (data : List Nat) : Nat :=
  ((data.map byte_bits_msb).join).foldl crc16_ref_step 0x0000

/-! ## Frame validation and dispatch (LoCommAPI.cpp, `handle_message_from_computer`)

The inbound buffer is the byte list actually received
(`computer_in_size = p.length`); out-of-range reads use default `0`
(they only occur past validation, which pins every used index inside
the frame). -/

def MESSAGE_TYPE_SIZE : Nat := 4

/-- `message_type_match` (LoCommLib.cpp lines 54-61). -/
def message_type_match (buf str : List Nat) (len : Nat) : Bool :=
  (List.range len).all (fun i => buf.getD i 0 == str.getD i 0)

/-- ASCII bytes of the frame type tags of the message type registry. -/
def CONN_TAG : List Nat := [0x43, 0x4F, 0x4E, 0x4E]

def PASS_TAG : List Nat := [0x50, 0x41, 0x53, 0x53]

def DCON_TAG : List Nat := [0x44, 0x43, 0x4F, 0x4E]

def STPW_TAG : List Nat := [0x53, 0x54, 0x50, 0x57]

def SEND_TAG : List Nat := [0x53, 0x45, 0x4E, 0x44]

def SNOD_TAG : List Nat := [0x53, 0x4E, 0x4F, 0x44]

def EPAR_TAG : List Nat := [0x45, 0x50, 0x41, 0x52]

def SCAN_TAG : List Nat := [0x53, 0x43, 0x41, 0x4E]

def GPKY_TAG : List Nat := [0x47, 0x50, 0x4B, 0x59]

/-- The registered request tags, in the order the dispatcher tries them. -/
def REGISTERED_TAGS : List (List Nat) :=
  [CONN_TAG, PASS_TAG, DCON_TAG, STPW_TAG, SEND_TAG, SNOD_TAG, EPAR_TAG, SCAN_TAG, GPKY_TAG]

/-- ASCII `"FAIL"`. -/
def FAIL_BYTES : List Nat := [0x46, 0x41, 0x49, 0x4C]

/-- ASCII `"OKAY"`. -/
def OKAY_BYTES : List Nat := [0x4F, 0x4B, 0x41, 0x59]

/-- The outcome of `handle_message_from_computer` on one inbound buffer:
a silent drop (validation failure), the invocation of the handler for a
registered tag, or the raw `Serial.write("FAIL")` of the unknown-tag
branch. -/
inductive ComputerAction where
  | drop : ComputerAction
  | handled : List Nat → ComputerAction
  | serialWrite : List Nat → ComputerAction
deriving Repr, DecidableEq

/-- `handle_message_from_computer` (LoCommAPI.cpp lines 67-148): the four
validation checks (start marker, length, CRC, end marker — the last one
written with `&&`, exactly as in the source) followed by the
message-type dispatch chain. -/
def handle_message_from_computer (p : List Nat) : ComputerAction :=
  if ¬(p.getD 0 0 = 0x12 ∧ p.getD 1 0 = 0x34) then .drop
  else
    let packet_size := (p.getD 2 0) <<< 8 ||| p.getD 3 0
    if packet_size ≠ p.length then .drop
    else
      let crc := crc_16 ((p.drop 2).take (packet_size - 6))
      let crc_high := (crc >>> 8) &&& 0xFF
      let crc_low := crc &&& 0xFF
      if crc_high ≠ p.getD (packet_size - 4) 0 ∨ crc_low ≠ p.getD (packet_size - 3) 0 then
        .drop
      else if p.getD (packet_size - 2) 0 ≠ 0x56 ∧ p.getD (packet_size - 1) 0 ≠ 0x78 then
        .drop
      else
        let message_type := (p.drop 4).take 4
        if message_type_match message_type CONN_TAG MESSAGE_TYPE_SIZE then .handled CONN_TAG
        else if message_type_match message_type PASS_TAG MESSAGE_TYPE_SIZE then
          .handled PASS_TAG
        else if message_type_match message_type DCON_TAG MESSAGE_TYPE_SIZE then
          .handled DCON_TAG
        else if message_type_match message_type STPW_TAG MESSAGE_TYPE_SIZE then
          .handled STPW_TAG
        else if message_type_match message_type SEND_TAG MESSAGE_TYPE_SIZE then
          .handled SEND_TAG
        else if message_type_match message_type SNOD_TAG MESSAGE_TYPE_SIZE then
          .handled SNOD_TAG
        else if message_type_match message_type EPAR_TAG MESSAGE_TYPE_SIZE then
          .handled EPAR_TAG
        else if message_type_match message_type SCAN_TAG MESSAGE_TYPE_SIZE then
          .handled SCAN_TAG
        else if message_type_match message_type GPKY_TAG MESSAGE_TYPE_SIZE then
          .handled GPKY_TAG
        else .serialWrite FAIL_BYTES

/-! ## Acknowledgement builders (LoCommBuildPacket.cpp)

Each builder writes the out packet into `computer_out_packet`; here it
is the returned byte list.  `core` is `out[2 .. 2+n)`, the range the
builder's CRC call covers (`crc_16(&computer_out_packet[2], n)`). -/

def CACK_SIZE : Nat := 16

def PWAK_SIZE : Nat := 20

def DCAK_SIZE : Nat := 16

def SPAK_SIZE : Nat := 20

def SACK_SIZE : Nat := 18

def SNAK_SIZE : Nat := 16

def EPAK_SIZE : Nat := 16

def SCAK_SIZE : Nat := 48

/-- Modelled from the spec: `GPAK_SIZE` is used by `build_GPAK_packet`
but defined in no source file of the repository.  The builder writes
its checksum at offsets 33-34 and the end marker at offsets 35-36, so
the GPAK frame's total length is 37. -/
def GPAK_SIZE : Nat := 37

/-- The two bytes of a 16-bit big-endian field (`(n >> 8) & 0xFF`,
`n & 0xFF`). -/
def be16 (n : Nat) : List Nat := [(n >>> 8) &&& 0xFF, n &&& 0xFF]

/-- `build_CACK_packet` (LoCommBuildPacket.cpp lines 3-34). -/
def build_CACK_packet (p : List Nat) : List Nat :=
  let core := be16 CACK_SIZE ++ [0x43, 0x41, 0x43, 0x4B] ++
    [p.getD 8 0, p.getD 9 0, p.getD 10 0, p.getD 11 0]
  [0x12, 0x34] ++ core ++ be16 (crc_16 core) ++ [0x56, 0x78]

/-- `build_PWAK_packet` (LoCommBuildPacket.cpp lines 36-81). -/
def build_PWAK_packet (p : List Nat) (password_entered_flag : Bool) : List Nat :=
  let core := be16 PWAK_SIZE ++ [0x50, 0x57, 0x41, 0x4B] ++
    [p.getD 8 0, p.getD 9 0, p.getD 10 0, p.getD 11 0] ++
    (if password_entered_flag then OKAY_BYTES else FAIL_BYTES)
  [0x12, 0x34] ++ core ++ be16 (crc_16 core) ++ [0x56, 0x78]

/-- `build_DCAK_packet` (LoCommBuildPacket.cpp lines 83-114). -/
def build_DCAK_packet (p : List Nat) : List Nat :=
  let core := be16 DCAK_SIZE ++ [0x44, 0x43, 0x41, 0x4B] ++
    [p.getD 8 0, p.getD 9 0, p.getD 10 0, p.getD 11 0]
  [0x12, 0x34] ++ core ++ be16 (crc_16 core) ++ [0x56, 0x78]

/-- `build_SPAK_packet` (LoCommBuildPacket.cpp lines 116-161). -/
def build_SPAK_packet (p : List Nat) (set_password_flag : Bool) : List Nat :=
  let core := be16 SPAK_SIZE ++ [0x53, 0x50, 0x41, 0x4B] ++
    [p.getD 8 0, p.getD 9 0, p.getD 10 0, p.getD 11 0] ++
    (if set_password_flag then OKAY_BYTES else FAIL_BYTES)
  [0x12, 0x34] ++ core ++ be16 (crc_16 core) ++ [0x56, 0x78]

/-- `build_SACK_packet` (LoCommBuildPacket.cpp lines 163-198): the
payload echoes the chunk number bytes `in[15]`, `in[16]`. -/
def build_SACK_packet (p : List Nat) : List Nat :=
  let core := be16 SACK_SIZE ++ [0x53, 0x41, 0x43, 0x4B] ++
    [p.getD 8 0, p.getD 9 0, p.getD 10 0, p.getD 11 0] ++
    [p.getD 15 0, p.getD 16 0]
  [0x12, 0x34] ++ core ++ be16 (crc_16 core) ++ [0x56, 0x78]

/-- `build_SNAK_packet` (LoCommBuildPacket.cpp lines 200-231). -/
def build_SNAK_packet (p : List Nat) : List Nat :=
  let core := be16 SNAK_SIZE ++ [0x53, 0x4E, 0x41, 0x4B] ++
    [p.getD 8 0, p.getD 9 0, p.getD 10 0, p.getD 11 0]
  [0x12, 0x34] ++ core ++ be16 (crc_16 core) ++ [0x56, 0x78]

/-- `build_EPAK_packet` (LoCommBuildPacket.cpp lines 234-265). -/
def build_EPAK_packet (p : List Nat) : List Nat :=
  let core := be16 EPAK_SIZE ++ [0x45, 0x50, 0x41, 0x4B] ++
    [p.getD 8 0, p.getD 9 0, p.getD 10 0, p.getD 11 0]
  [0x12, 0x34] ++ core ++ be16 (crc_16 core) ++ [0x56, 0x78]

/-- `build_SCAK_packet` (LoCommBuildPacket.cpp lines 267-304): the
payload is the 32-entry `deviceIDList` table. -/
def build_SCAK_packet (p : List Nat) (deviceIDList : List Nat) : List Nat :=
  let core := be16 SCAK_SIZE ++ [0x53, 0x43, 0x41, 0x4B] ++
    [p.getD 8 0, p.getD 9 0, p.getD 10 0, p.getD 11 0] ++
    (List.range 32).map (fun i => deviceIDList.getD i 0)
  [0x12, 0x34] ++ core ++ be16 (crc_16 core) ++ [0x56, 0x78]

/-- `build_GPAK_packet` (LoCommBuildPacket.cpp lines 306-355).  The size
field is written from `SCAK_SIZE`, as in the source.  When the key is
displayed the loop overwrites the `0xFF` flag byte at offset 12 with
`key_buf[0]`; offset 32 (and offsets 13-32 in the failure branches) are
never written by this builder and are modelled as `0`. -/
def build_GPAK_packet (p : List Nat) (st : SecState) : List Nat :=
  let payload :=
    if st.is_paired then
      match sec_display_key st 21 with
      | some key => key ++ [0x00]
      | none => 0x00 :: List.replicate 20 0
    else 0x00 :: List.replicate 20 0
  let core := be16 SCAK_SIZE ++ [0x47, 0x50, 0x41, 0x4B] ++
    [p.getD 8 0, p.getD 9 0, p.getD 10 0, p.getD 11 0] ++ payload
  [0x12, 0x34] ++ core ++ be16 (crc_16 core) ++ [0x56, 0x78]

/-! # Theorems -/

/-! ### Z85 round-trip lemmas -/

theorem z85_alphabet_index (d : Nat) (hd : d < 85) :
    z85_index (Z85_CHARS.getD d 0) = some d := by
  unfold z85_index
  interval_cases d <;> decide

theorem z85_block_val_eq (b0 b1 b2 b3 : Nat)
    (h0 : b0 < 256) (h1 : b1 < 256) (h2 : b2 < 256) (h3 : b3 < 256) :
    z85_block_val [b0, b1, b2, b3] =
      b0 * 16777216 + b1 * 65536 + b2 * 256 + b3 := by
  unfold z85_block_val
  simp only [List.getD_cons_zero, List.getD_cons_succ, Nat.shiftLeft_eq]
  have e2 : (b2 : Nat) * 2 ^ 8 ||| b3 = b2 * 2 ^ 8 + b3 := by
    rw [Nat.mul_comm, ← Nat.mul_add_lt_is_or (by omega) b2, Nat.mul_comm]
  have e1 : (b1 : Nat) * 2 ^ 16 ||| (b2 * 2 ^ 8 + b3) = b1 * 2 ^ 16 + (b2 * 2 ^ 8 + b3) := by
    rw [Nat.mul_comm, ← Nat.mul_add_lt_is_or (by omega) b1, Nat.mul_comm]
  have e0 : (b0 : Nat) * 2 ^ 24 ||| (b1 * 2 ^ 16 + (b2 * 2 ^ 8 + b3)) =
      b0 * 2 ^ 24 + (b1 * 2 ^ 16 + (b2 * 2 ^ 8 + b3)) := by
    rw [Nat.mul_comm, ← Nat.mul_add_lt_is_or (by omega) b0, Nat.mul_comm]
  rw [Nat.lor_assoc, Nat.lor_assoc, e2, e1, e0]
  ring_nf

theorem z85_decode_loop_digits (ds : List Nat) (acc : Nat) (h : ∀ d ∈ ds, d < 85) :
    z85_decode_loop (ds.map (fun d => Z85_CHARS.getD d 0)) acc =
      some (ds.foldl (fun v d => (v * 85 + d) % 4294967296) acc) := by
  induction ds generalizing acc with
  | nil => rfl
  | cons d rest ih =>
    simp only [List.map, List.foldl]
    show (match z85_index (Z85_CHARS.getD d 0) with
      | none => none
      | some d => z85_decode_loop (rest.map _) ((acc * 85 + d) % 4294967296)) = _
    rw [z85_alphabet_index d (h d (List.mem_cons_self _ _))]
    exact ih _ (fun x hx => h x (List.mem_cons_of_mem _ hx))

theorem z85_digits5_eq (val : Nat) : z85_digits 5 val =
    [val / 85 ^ 4 % 85, val / 85 ^ 3 % 85, val / 85 ^ 2 % 85, val / 85 % 85, val % 85] := by
  show z85_digits 4 (val / 85) ++ [val % 85] = _
  show z85_digits 3 (val / 85 / 85) ++ [val / 85 % 85] ++ [val % 85] = _
  show z85_digits 2 (val / 85 / 85 / 85) ++ [val / 85 / 85 % 85] ++ _ ++ _ = _
  show z85_digits 1 (val / 85 / 85 / 85 / 85) ++ [val / 85 / 85 / 85 % 85] ++ _ ++ _ ++ _ = _
  show z85_digits 0 (val / 85 / 85 / 85 / 85 / 85) ++ [val / 85 / 85 / 85 / 85 % 85]
      ++ _ ++ _ ++ _ ++ _ = _
  simp [z85_digits, Nat.div_div_eq_div_mul]

theorem z85_decode_encode_block (b0 b1 b2 b3 : Nat)
    (h0 : b0 < 256) (h1 : b1 < 256) (h2 : b2 < 256) (h3 : b3 < 256) :
    z85_decode_block (z85_encode_block [b0, b1, b2, b3]) = some [b0, b1, b2, b3] := by
  unfold z85_encode_block
  rw [z85_block_val_eq b0 b1 b2 b3 h0 h1 h2 h3]
  set val := b0 * 16777216 + b1 * 65536 + b2 * 256 + b3 with hval
  have hv : val < 4294967296 := by omega
  rw [z85_digits5_eq]
  unfold z85_decode_block
  rw [z85_decode_loop_digits _ 0 (by
    intro d hd
    simp only [List.mem_cons, List.not_mem_nil, or_false] at hd
    rcases hd with h | h | h | h | h <;> (subst h; exact Nat.mod_lt _ (by norm_num)))]
  simp only [Option.map_some', List.foldl]
  have h4 : val / 85 ^ 4 < 85 := by omega
  have k4 : val / 85 ^ 4 % 85 = val / 85 ^ 4 := Nat.mod_eq_of_lt h4
  have d43 : val / 85 ^ 4 * 85 + val / 85 ^ 3 % 85 = val / 85 ^ 3 := by
    have h1 := Nat.div_add_mod (val / 85 ^ 3) 85
    have h2 : val / 85 ^ 3 / 85 = val / 85 ^ 4 := by
      rw [Nat.div_div_eq_div_mul]; norm_num
    omega
  have d32 : val / 85 ^ 3 * 85 + val / 85 ^ 2 % 85 = val / 85 ^ 2 := by
    have h1 := Nat.div_add_mod (val / 85 ^ 2) 85
    have h2 : val / 85 ^ 2 / 85 = val / 85 ^ 3 := by
      rw [Nat.div_div_eq_div_mul]; norm_num
    omega
  have d21 : val / 85 ^ 2 * 85 + val / 85 % 85 = val / 85 := by
    have h1 := Nat.div_add_mod (val / 85) 85
    have h2 : val / 85 / 85 = val / 85 ^ 2 := by
      rw [Nat.div_div_eq_div_mul]; norm_num
    omega
  have d10 : val / 85 * 85 + val % 85 = val := by
    have h1 := Nat.div_add_mod val 85
    omega
  have m3 : val / 85 ^ 3 < 4294967296 := by omega
  have m2 : val / 85 ^ 2 < 4294967296 := by omega
  have m1 : val / 85 < 4294967296 := by omega
  have n4 : val / 85 ^ 4 % 85 % 4294967296 = val / 85 ^ 4 % 85 :=
    Nat.mod_eq_of_lt (by omega)
  rw [Nat.zero_mul, Nat.zero_add, n4, k4, d43,
      Nat.mod_eq_of_lt m3, d32, Nat.mod_eq_of_lt m2, d21, Nat.mod_eq_of_lt m1, d10,
      Nat.mod_eq_of_lt hv]
  rw [Nat.shiftRight_eq_div_pow, Nat.shiftRight_eq_div_pow, Nat.shiftRight_eq_div_pow]
  rw [show (0xFF : Nat) = 2 ^ 8 - 1 from rfl,
      Nat.and_pow_two_sub_one_eq_mod, Nat.and_pow_two_sub_one_eq_mod,
      Nat.and_pow_two_sub_one_eq_mod, Nat.and_pow_two_sub_one_eq_mod]
  congr 1
  clear k4 d43 d32 d21 d10 m3 m2 m1 n4 h4
  have e0 : val / 2 ^ 24 % 2 ^ 8 = b0 := by omega
  have e1 : val / 2 ^ 16 % 2 ^ 8 = b1 := by omega
  have e2 : val / 2 ^ 8 % 2 ^ 8 = b2 := by omega
  have e3 : val % 2 ^ 8 = b3 := by omega
  rw [e0, e1, e2, e3]

theorem z85_encode_block_length (src : List Nat) : (z85_encode_block src).length = 5 := by
  unfold z85_encode_block
  rw [List.length_map, z85_digits5_eq]
  rfl

theorem z85_decode20_encode16 (k : List Nat) (hk : k.length = 16) (hb : AllBytes k) :
    z85_decode20 (z85_encode16 k) = some k := by
  obtain ⟨a0, a1, a2, a3, a4, a5, a6, a7, a8, a9, a10, a11, a12, a13, a14, a15, hkk⟩ :
      ∃ a0 a1 a2 a3 a4 a5 a6 a7 a8 a9 a10 a11 a12 a13 a14 a15, k =
        [a0, a1, a2, a3, a4, a5, a6, a7, a8, a9, a10, a11, a12, a13, a14, a15] := by
    match k, hk with
    | [a0, a1, a2, a3, a4, a5, a6, a7, a8, a9, a10, a11, a12, a13, a14, a15], _ =>
      exact ⟨_, _, _, _, _, _, _, _, _, _, _, _, _, _, _, _, rfl⟩
  subst hkk
  simp only [AllBytes, List.mem_cons, List.not_mem_nil, or_false, forall_eq_or_imp,
    forall_eq] at hb
  obtain ⟨h0, h1, h2, h3, h4, h5, h6, h7, h8, h9, h10, h11, h12, h13, h14, h15⟩ := hb
  have e0 := z85_decode_encode_block a0 a1 a2 a3 h0 h1 h2 h3
  have e1 := z85_decode_encode_block a4 a5 a6 a7 h4 h5 h6 h7
  have e2 := z85_decode_encode_block a8 a9 a10 a11 h8 h9 h10 h11
  have e3 := z85_decode_encode_block a12 a13 a14 a15 h12 h13 h14 h15
  have hb0 : z85_encode16 [a0, a1, a2, a3, a4, a5, a6, a7, a8, a9, a10, a11, a12, a13,
      a14, a15] = z85_encode_block [a0, a1, a2, a3] ++ z85_encode_block [a4, a5, a6, a7] ++
      z85_encode_block [a8, a9, a10, a11] ++ z85_encode_block [a12, a13, a14, a15] := rfl
  rw [hb0]
  obtain ⟨c0, c1, c2, c3, c4, hc0⟩ : ∃ c0 c1 c2 c3 c4,
      z85_encode_block [a0, a1, a2, a3] = [c0, c1, c2, c3, c4] := by
    match hx : z85_encode_block [a0, a1, a2, a3], z85_encode_block_length [a0, a1, a2, a3] with
    | [c0, c1, c2, c3, c4], _ => exact ⟨_, _, _, _, _, rfl⟩
  obtain ⟨d0, d1, d2, d3, d4, hc1⟩ : ∃ d0 d1 d2 d3 d4,
      z85_encode_block [a4, a5, a6, a7] = [d0, d1, d2, d3, d4] := by
    match hx : z85_encode_block [a4, a5, a6, a7], z85_encode_block_length [a4, a5, a6, a7] with
    | [d0, d1, d2, d3, d4], _ => exact ⟨_, _, _, _, _, rfl⟩
  obtain ⟨f0, f1, f2, f3, f4, hc2⟩ : ∃ f0 f1 f2 f3 f4,
      z85_encode_block [a8, a9, a10, a11] = [f0, f1, f2, f3, f4] := by
    match hx : z85_encode_block [a8, a9, a10, a11],
        z85_encode_block_length [a8, a9, a10, a11] with
    | [f0, f1, f2, f3, f4], _ => exact ⟨_, _, _, _, _, rfl⟩
  obtain ⟨g0, g1, g2, g3, g4, hc3⟩ : ∃ g0 g1 g2 g3 g4,
      z85_encode_block [a12, a13, a14, a15] = [g0, g1, g2, g3, g4] := by
    match hx : z85_encode_block [a12, a13, a14, a15],
        z85_encode_block_length [a12, a13, a14, a15] with
    | [g0, g1, g2, g3, g4], _ => exact ⟨_, _, _, _, _, rfl⟩
  rw [hc0] at e0; rw [hc1] at e1; rw [hc2] at e2; rw [hc3] at e3
  rw [hc0, hc1, hc2, hc3]
  show z85_decode20 [c0, c1, c2, c3, c4, d0, d1, d2, d3, d4, f0, f1, f2, f3, f4,
    g0, g1, g2, g3, g4] = _
  unfold z85_decode20
  rw [show ([c0, c1, c2, c3, c4, d0, d1, d2, d3, d4, f0, f1, f2, f3, f4, g0, g1, g2, g3,
      g4].drop 0).take 5 = [c0, c1, c2, c3, c4] from rfl]
  rw [show ([c0, c1, c2, c3, c4, d0, d1, d2, d3, d4, f0, f1, f2, f3, f4, g0, g1, g2, g3,
      g4].drop 5).take 5 = [d0, d1, d2, d3, d4] from rfl]
  rw [show ([c0, c1, c2, c3, c4, d0, d1, d2, d3, d4, f0, f1, f2, f3, f4, g0, g1, g2, g3,
      g4].drop 10).take 5 = [f0, f1, f2, f3, f4] from rfl]
  rw [show ([c0, c1, c2, c3, c4, d0, d1, d2, d3, d4, f0, f1, f2, f3, f4, g0, g1, g2, g3,
      g4].drop 15).take 5 = [g0, g1, g2, g3, g4] from rfl]
  rw [e0, e1, e2, e3]
  rfl

/-! ### Equivalence of `crc_16` with the bit-serial reference

Both the byte-at-a-time update and the bit-serial update are affine over
GF(2) (XOR-linear) in the register, so it suffices to check that they
agree on a zero register for each of the 256 byte values, which is a
finite computation. -/

theorem xor_mod_two_pow (a b n : Nat) :
    (a ^^^ b) % 2 ^ n = a % 2 ^ n ^^^ b % 2 ^ n := by
  apply Nat.eq_of_testBit_eq
  intro i
  simp only [Nat.testBit_mod_two_pow, Nat.testBit_xor]
  cases Nat.decLt i n with
  | isTrue h => simp [h]
  | isFalse h => simp [h]

theorem xor_shiftLeft (a b k : Nat) : (a ^^^ b) <<< k = a <<< k ^^^ b <<< k := by
  apply Nat.eq_of_testBit_eq
  intro i
  simp only [Nat.testBit_shiftLeft, Nat.testBit_xor]
  cases Nat.decLe k i with
  | isTrue h => simp [h]
  | isFalse h => simp [h]

theorem and_top_bit (x : Nat) :
    x &&& 0x8000 = if x.testBit 15 then 0x8000 else 0 := by
  cases hx : x.testBit 15 with
  | true =>
    rw [if_pos rfl]
    apply Nat.eq_of_testBit_eq
    intro i
    rcases eq_or_ne i 15 with h | h
    · subst h
      simp [Nat.testBit_and, hx, show Nat.testBit 0x8000 15 = true from rfl]
    · have h15 : Nat.testBit 0x8000 i = false := by
        rw [show (0x8000 : Nat) = 2 ^ 15 from rfl]
        exact Nat.testBit_two_pow_of_ne (fun hh => h hh.symm)
      simp [Nat.testBit_and, h15]
  | false =>
    rw [if_neg (by simp)]
    apply Nat.eq_of_testBit_eq
    intro i
    rcases eq_or_ne i 15 with h | h
    · subst h
      simp [Nat.testBit_and, hx]
    · have h15 : Nat.testBit 0x8000 i = false := by
        rw [show (0x8000 : Nat) = 2 ^ 15 from rfl]
        exact Nat.testBit_two_pow_of_ne (fun hh => h hh.symm)
      simp [Nat.testBit_and, h15]

theorem crc16_round_testBit (x : Nat) :
    crc16_round x =
      if x.testBit 15 then ((x <<< 1) ^^^ 0x1021) % 65536 else (x <<< 1) % 65536 := by
  unfold crc16_round
  rw [and_top_bit]
  cases hx : x.testBit 15 <;> simp

theorem crc16_round_shape (x : Nat) :
    crc16_round x = (x <<< 1) % 65536 ^^^ (if x.testBit 15 then 0x1021 else 0) := by
  rw [crc16_round_testBit]
  cases hx : x.testBit 15
  · simp
  · rw [if_pos rfl, if_pos rfl, show (65536 : Nat) = 2 ^ 16 from by norm_num,
        xor_mod_two_pow]
    norm_num

theorem nat_xor_left_comm (a b c : Nat) : a ^^^ (b ^^^ c) = b ^^^ (a ^^^ c) := by
  rw [← Nat.xor_assoc, Nat.xor_comm a b, Nat.xor_assoc]

theorem ite_bne_xor (a b : Bool) (P : Nat) :
    (if (a != b) then P else 0) = (if a then P else 0) ^^^ (if b then P else 0) := by
  cases a <;> cases b <;> simp [Nat.xor_self]

theorem crc16_round_linear (x y : Nat) :
    crc16_round (x ^^^ y) = crc16_round x ^^^ crc16_round y := by
  rw [crc16_round_shape, crc16_round_shape, crc16_round_shape]
  have htop : (x ^^^ y).testBit 15 = (x.testBit 15 != y.testBit 15) := by
    simp [Nat.testBit_xor]
  rw [htop, ite_bne_xor, xor_shiftLeft, show (65536 : Nat) = 2 ^ 16 from by norm_num,
      xor_mod_two_pow]
  simp only [Nat.xor_assoc]
  rw [nat_xor_left_comm (y <<< 1 % 2 ^ 16) (if x.testBit 15 then (4129 : Nat) else 0)]

theorem crc16_round_iterate_linear (n x y : Nat) :
    crc16_round^[n] (x ^^^ y) = crc16_round^[n] x ^^^ crc16_round^[n] y := by
  induction n generalizing x y with
  | zero => rfl
  | succ n ih =>
    rw [Function.iterate_succ_apply, Function.iterate_succ_apply,
        Function.iterate_succ_apply, crc16_round_linear, ih]

theorem crc16_round_zero : crc16_round 0 = 0 := by decide

theorem crc16_round_iterate_zero (n : Nat) : crc16_round^[n] 0 = 0 := by
  induction n with
  | zero => rfl
  | succ n ih => rw [Function.iterate_succ_apply, crc16_round_zero, ih]

theorem crc16_ref_step_shape (c : Nat) (bit : Bool) :
    crc16_ref_step c bit =
      (c <<< 1) % 65536 ^^^ (if (c.testBit 15 != bit) then 0x1021 else 0) := by
  unfold crc16_ref_step
  cases h : (c.testBit 15 != bit)
  · simp
  · rw [if_pos rfl, if_pos rfl, show (65536 : Nat) = 2 ^ 16 from by norm_num,
        xor_mod_two_pow]
    norm_num

theorem crc16_ref_step_eq (c : Nat) (bit : Bool) :
    crc16_ref_step c bit = crc16_round c ^^^ (if bit then 0x1021 else 0) := by
  rw [crc16_ref_step_shape, crc16_round_shape, ite_bne_xor, Nat.xor_assoc]

theorem crc16_ref_fold_affine (bits : List Bool) (c : Nat) :
    bits.foldl crc16_ref_step c =
      crc16_round^[bits.length] c ^^^ bits.foldl crc16_ref_step 0 := by
  induction bits generalizing c with
  | nil => simp
  | cons bit bs ih =>
    simp only [List.foldl, List.length_cons]
    rw [ih (crc16_ref_step c bit), ih (crc16_ref_step 0 bit)]
    rw [crc16_ref_step_eq c bit, crc16_ref_step_eq 0 bit, crc16_round_zero, Nat.zero_xor]
    rw [crc16_round_iterate_linear]
    rw [← Function.iterate_succ_apply, ← Nat.xor_assoc]

theorem crc16_byte_step_affine (c b : Nat) :
    crc16_byte_step c b = crc16_round^[8] (c % 65536) ^^^ crc16_byte_step 0 b := by
  unfold crc16_byte_step
  have hm : (65536 : Nat) = 2 ^ 16 := by norm_num
  rw [Nat.zero_xor, hm, xor_mod_two_pow, crc16_round_iterate_linear]

theorem crc16_round_mod (x : Nat) : crc16_round (x % 65536) = crc16_round x := by
  rw [crc16_round_shape, crc16_round_shape]
  have ht : (x % 65536).testBit 15 = x.testBit 15 := by
    rw [show (65536 : Nat) = 2 ^ 16 from by norm_num, Nat.testBit_mod_two_pow]
    simp
  have hs : (x % 65536) <<< 1 % 65536 = x <<< 1 % 65536 := by
    apply Nat.eq_of_testBit_eq
    intro i
    rw [show (65536 : Nat) = 2 ^ 16 from by norm_num]
    simp only [Nat.testBit_mod_two_pow, Nat.testBit_shiftLeft]
    by_cases h : i < 16
    · by_cases h1 : 1 ≤ i
      · have h2 : i - 1 < 16 := by omega
        simp [h, h1, h2]
      · simp [h, h1]
    · simp [h]
  rw [ht, hs]

set_option maxRecDepth 8192 in
theorem crc16_byte_base (b : Nat) (hb : b < 256) :
    crc16_byte_step 0 b = (byte_bits_msb b).foldl crc16_ref_step 0 := by
  revert b
  decide

theorem crc16_byte_step_eq_bits (c b : Nat) (hb : b < 256) :
    crc16_byte_step c b = (byte_bits_msb b).foldl crc16_ref_step c := by
  rw [crc16_byte_step_affine, crc16_byte_base b hb]
  rw [crc16_ref_fold_affine (byte_bits_msb b) c]
  have hlen : (byte_bits_msb b).length = 8 := rfl
  rw [hlen]
  have hc : crc16_round^[8] (c % 65536) = crc16_round^[8] c := by
    have h1 : crc16_round^[8] (c % 65536) = crc16_round^[7] (crc16_round (c % 65536)) := rfl
    rw [h1, crc16_round_mod]
    rfl
  rw [hc]

/-- `crc_16` agrees with the bit-serial reference on every byte
sequence. -/
theorem crc_16_eq_ref (data : List Nat) (hb : AllBytes data) :
    crc_16 data = crc16_ref data := by
  unfold crc_16 crc16_ref
  have main : ∀ (l : List Nat) (c : Nat), AllBytes l →
      l.foldl crc16_byte_step c = ((l.map byte_bits_msb).join).foldl crc16_ref_step c := by
    intro l
    induction l with
    | nil => intro c _; rfl
    | cons b rest ih =>
      intro c hl
      have hj : (List.map byte_bits_msb (b :: rest)).join =
          byte_bits_msb b ++ (List.map byte_bits_msb rest).join := rfl
      rw [show (b :: rest).foldl crc16_byte_step c =
          rest.foldl crc16_byte_step (crc16_byte_step c b) from rfl, hj, List.foldl_append]
      rw [← crc16_byte_step_eq_bits c b (hl b (List.mem_cons_self _ _))]
      exact ih _ (fun x hx => hl x (List.mem_cons_of_mem _ hx))
  exact main data 0 hb

/-! ### Decode success and failure conditions -/

theorem z85_index_isSome_of_mem (c : Nat) (hc : c ∈ Z85_CHARS) :
    (z85_index c).isSome = true := by
  cases hz : z85_index c with
  | none =>
    exfalso
    have hne := List.indexOf?_eq_none_iff.mp hz c hc
    simp at hne
  | some d => rfl

theorem z85_decode_loop_isSome (s : List Nat) (acc : Nat)
    (h : ∀ c ∈ s, (z85_index c).isSome = true) :
    (z85_decode_loop s acc).isSome = true := by
  induction s generalizing acc with
  | nil => rfl
  | cons c rest ih =>
    have hc := h c (List.mem_cons_self _ _)
    cases hz : z85_index c with
    | none => rw [hz] at hc; simp at hc
    | some d =>
      show (match z85_index c with
        | none => none
        | some d => z85_decode_loop rest ((acc * 85 + d) % 4294967296)).isSome = true
      rw [hz]
      exact ih _ (fun x hx => h x (List.mem_cons_of_mem _ hx))

theorem z85_decode_block_isSome (s : List Nat) (h : ∀ c ∈ s, c ∈ Z85_CHARS) :
    (z85_decode_block s).isSome = true := by
  unfold z85_decode_block
  have hl := z85_decode_loop_isSome s 0 (fun c hc => z85_index_isSome_of_mem c (h c hc))
  cases hz : z85_decode_loop s 0 with
  | none => rw [hz] at hl; simp at hl
  | some v => rfl

theorem z85_decode_loop_none (s : List Nat) (acc : Nat) (c : Nat) (hc : c ∈ s)
    (hbad : z85_index c = none) : z85_decode_loop s acc = none := by
  induction s generalizing acc with
  | nil => cases hc
  | cons x rest ih =>
    show (match z85_index x with
      | none => none
      | some d => z85_decode_loop rest ((acc * 85 + d) % 4294967296)) = none
    cases hz : z85_index x with
    | none => rfl
    | some d =>
      rcases List.mem_cons.mp hc with h | h
      · subst h; rw [hz] at hbad; cases hbad
      · exact ih _ h

theorem z85_decode_block_none (s : List Nat) (c : Nat) (hc : c ∈ s)
    (hbad : z85_index c = none) : z85_decode_block s = none := by
  unfold z85_decode_block
  rw [z85_decode_loop_none s 0 c hc hbad]
  rfl

theorem z85_decode20_none (s : List Nat) (hlen : s.length = 20) (c : Nat) (hc : c ∈ s)
    (hbad : z85_index c = none) : z85_decode20 s = none := by
  have hsplit : c ∈ (s.drop 0).take 5 ∨ c ∈ (s.drop 5).take 5 ∨ c ∈ (s.drop 10).take 5 ∨
      c ∈ (s.drop 15).take 5 := by
    simp only [List.drop_zero]
    have h05 : s = s.take 5 ++ s.drop 5 := (List.take_append_drop 5 s).symm
    have h510 : s.drop 5 = (s.drop 5).take 5 ++ s.drop 10 := by
      have := (List.take_append_drop 5 (s.drop 5)).symm
      rwa [List.drop_drop] at this
    have h1015 : s.drop 10 = (s.drop 10).take 5 ++ s.drop 15 := by
      have := (List.take_append_drop 5 (s.drop 10)).symm
      rwa [List.drop_drop] at this
    have h15 : s.drop 15 = (s.drop 15).take 5 := by
      rw [List.take_of_length_le]
      simp [hlen]
    rw [h05] at hc
    rcases List.mem_append.mp hc with h | h
    · exact Or.inl h
    · rw [h510] at h
      rcases List.mem_append.mp h with h | h
      · exact Or.inr (Or.inl h)
      · rw [h1015] at h
        rcases List.mem_append.mp h with h | h
        · exact Or.inr (Or.inr (Or.inl h))
        · rw [h15] at h
          exact Or.inr (Or.inr (Or.inr h))
  unfold z85_decode20
  rcases hsplit with h | h | h | h
  · rw [z85_decode_block_none _ c h hbad]
  · cases h0 : z85_decode_block ((s.drop 0).take 5)
    · rfl
    · rw [z85_decode_block_none _ c h hbad]
  · cases h0 : z85_decode_block ((s.drop 0).take 5)
    · rfl
    · cases h1 : z85_decode_block ((s.drop 5).take 5)
      · rfl
      · rw [z85_decode_block_none _ c h hbad]
  · cases h0 : z85_decode_block ((s.drop 0).take 5)
    · rfl
    · cases h1 : z85_decode_block ((s.drop 5).take 5)
      · rfl
      · cases h2 : z85_decode_block ((s.drop 10).take 5)
        · rfl
        · rw [z85_decode_block_none _ c h hbad]

/-! # Claim theorems -/

/-- C9: decoding the 5-character base-85 encoding of any 4-byte block
yields the original block; any 5-character block over the 85-character
alphabet decodes successfully; and every 16-byte key round-trips
through the 20-character export string. -/
theorem z85_roundtrip_and_totality :
    (∀ b0 b1 b2 b3 : Nat, b0 < 256 → b1 < 256 → b2 < 256 → b3 < 256 →
      z85_decode_block (z85_encode_block [b0, b1, b2, b3]) = some [b0, b1, b2, b3]) ∧
    (∀ s : List Nat, s.length = 5 → (∀ c ∈ s, c ∈ Z85_CHARS) →
      (z85_decode_block s).isSome = true) ∧
    (∀ k : List Nat, k.length = 16 → AllBytes k →
      z85_decode20 (z85_encode16 k) = some k) := by
  refine ⟨?_, ?_, ?_⟩
  · intro b0 b1 b2 b3 h0 h1 h2 h3
    exact z85_decode_encode_block b0 b1 b2 b3 h0 h1 h2 h3
  · intro s _ h
    exact z85_decode_block_isSome s h
  · intro k hk hbytes
    exact z85_decode20_encode16 k hk hbytes

set_option maxRecDepth 8192 in
/-- Witness for C9 at concrete inputs. -/
theorem z85_roundtrip_and_totality_witness :
    z85_decode_block (z85_encode_block [1, 2, 3, 254]) = some [1, 2, 3, 254] ∧
    (z85_decode_block [48, 49, 50, 51, 52]).isSome = true ∧
    z85_decode20 (z85_encode16 (List.replicate 16 7)) = some (List.replicate 16 7) :=
  ⟨z85_roundtrip_and_totality.1 1 2 3 254 (by decide) (by decide) (by decide) (by decide),
   z85_roundtrip_and_totality.2.1 [48, 49, 50, 51, 52] (by decide) (by decide),
   z85_roundtrip_and_totality.2.2 (List.replicate 16 7) (by decide) (by decide)⟩

/-- C3: the frame checksum `crc_16` computes the 16-bit CRC with
polynomial 0x1021, initial value 0x0000, most-significant-bit-first
processing and no final XOR: it agrees with the bit-serial reference
shift register `crc16_ref` on every byte sequence. -/
theorem crc_16_matches_reference (data : List Nat) (hb : AllBytes data) :
    crc_16 data = crc16_ref data :=
  crc_16_eq_ref data hb

set_option maxRecDepth 32768 in
/-- Witness for C3: the ASCII digits `"123456789"`; the shared value is
the well-known check value 0x31C3 of this CRC variant. -/
theorem crc_16_matches_reference_witness :
    AllBytes [0x31, 0x32, 0x33, 0x34, 0x35, 0x36, 0x37, 0x38, 0x39] ∧
    crc_16 [0x31, 0x32, 0x33, 0x34, 0x35, 0x36, 0x37, 0x38, 0x39] =
      crc16_ref [0x31, 0x32, 0x33, 0x34, 0x35, 0x36, 0x37, 0x38, 0x39] ∧
    crc_16 [0x31, 0x32, 0x33, 0x34, 0x35, 0x36, 0x37, 0x38, 0x39] = 0x31C3 :=
  ⟨by decide,
   crc_16_matches_reference [0x31, 0x32, 0x33, 0x34, 0x35, 0x36, 0x37, 0x38, 0x39] (by decide),
   by decide⟩

/-- C4: a login attempt with a password whose salted hash does not match
the stored hash fails and changes nothing: the returned state is the
input state, so the logged-in flag, the in-RAM wrapping key and group
key, and every persisted field are untouched. -/
theorem sec_login_wrong_password (hashFn : HashFn) (kdf : KdfFn) (gdec : GcmDec)
    (st : SecState) (password : List Nat)
    (hne : hashFn st.password_salt password ≠ st.password_hash) :
    sec_login hashFn kdf gdec st password = (false, st) := by
  unfold sec_login
  cases hinit : st.is_initialized with
  | false => rfl
  | true =>
    simp only [Bool.not_true, Bool.false_eq_true, if_false]
    rw [if_pos hne]

/-- Witness for C4 at a concrete state and hash oracle. -/
theorem sec_login_wrong_password_witness :
    (fun (salt pw : List Nat) => [(1 : Nat)]) [] [] ≠ ([] : List Nat) ∧
    sec_login (fun _ _ => [1]) (fun _ _ => []) (fun _ _ _ _ => none)
      { is_initialized := true, is_logged_in := false, is_paired := false,
        password_hash := [], password_salt := [], encrypted_d2d_key := [],
        decrypted_d2d_key := [], wrapping_key := [], nvm_salt := [], nvm_hash := [],
        nvm_d2d_key := none } [] =
      (false,
       { is_initialized := true, is_logged_in := false, is_paired := false,
         password_hash := [], password_salt := [], encrypted_d2d_key := [],
         decrypted_d2d_key := [], wrapping_key := [], nvm_salt := [], nvm_hash := [],
         nvm_d2d_key := none }) :=
  ⟨by decide,
   sec_login_wrong_password (fun _ _ => [1]) (fun _ _ => []) (fun _ _ _ _ => none)
     { is_initialized := true, is_logged_in := false, is_paired := false,
       password_hash := [], password_salt := [], encrypted_d2d_key := [],
       decrypted_d2d_key := [], wrapping_key := [], nvm_salt := [], nvm_hash := [],
       nvm_d2d_key := none } [] (by decide)⟩

/-- C10: `sec_decryptD2DMessage` returns failure, produces no plaintext
and never consults the AEAD oracle (the result is `none` for every
possible `gdec`) whenever the input is shorter than the 20-byte
nonce-plus-tag overhead or the payload exceeds the caller's buffer. -/
theorem sec_decryptD2DMessage_short_input (gdec : GcmDec) (st : SecState)
    (ciphertext : List Nat) (bufferSize : Nat)
    (h : ciphertext.length < D2D_OVERHEAD ∨
      bufferSize < ciphertext.length - D2D_OVERHEAD) :
    sec_decryptD2DMessage gdec st ciphertext bufferSize = none := by
  have hD : D2D_OVERHEAD = 20 := rfl
  unfold sec_decryptD2DMessage
  split
  · rfl
  · split
    · rfl
    · rename_i h1 h2
      rw [if_pos (by omega)]

/-- Witness for C10: a 5-byte input is rejected for every oracle. -/
theorem sec_decryptD2DMessage_short_input_witness :
    ([1, 2, 3, 4, 5] : List Nat).length < D2D_OVERHEAD ∧
    sec_decryptD2DMessage (fun _ _ _ _ => some [])
      { is_initialized := true, is_logged_in := true, is_paired := true,
        password_hash := [], password_salt := [], encrypted_d2d_key := [],
        decrypted_d2d_key := [], wrapping_key := [], nvm_salt := [], nvm_hash := [],
        nvm_d2d_key := none } [1, 2, 3, 4, 5] 100 = none :=
  ⟨by decide,
   sec_decryptD2DMessage_short_input (fun _ _ _ _ => some [])
     { is_initialized := true, is_logged_in := true, is_paired := true,
       password_hash := [], password_salt := [], encrypted_d2d_key := [],
       decrypted_d2d_key := [], wrapping_key := [], nvm_salt := [], nvm_hash := [],
       nvm_d2d_key := none } [1, 2, 3, 4, 5] 100 (Or.inl (by decide))⟩

/-- C2: when logged in, paired and the output buffer is large enough,
`sec_encryptD2DMessage` succeeds with output laid out as
`nonce ++ ciphertext ++ tag`, of length input-length plus the fixed
published overhead `D2D_OVERHEAD = IV_LEN + TAG_LEN` (= 12 + 8 = 20),
and `sec_decryptD2DMessage` splits its input with that same constant:
any successful decryption yields exactly `input length − D2D_OVERHEAD`
plaintext bytes. -/
theorem sec_encryptD2DMessage_layout (genc : GcmEnc) (iv : List Nat) (st : SecState)
    (plaintext : List Nat) (bufferSize : Nat)
    (hlog : st.is_logged_in = true) (hpair : st.is_paired = true)
    (hiv : iv.length = IV_LEN)
    (hbuf : plaintext.length + D2D_OVERHEAD ≤ bufferSize)
    (hct : (genc st.decrypted_d2d_key iv plaintext).1.length = plaintext.length)
    (htag : (genc st.decrypted_d2d_key iv plaintext).2.length = TAG_LEN) :
    sec_encryptD2DMessage genc iv st plaintext bufferSize =
      some (iv ++ (genc st.decrypted_d2d_key iv plaintext).1 ++
        (genc st.decrypted_d2d_key iv plaintext).2) ∧
    (∀ out, sec_encryptD2DMessage genc iv st plaintext bufferSize = some out →
      out.length = plaintext.length + D2D_OVERHEAD) ∧
    D2D_OVERHEAD = IV_LEN + TAG_LEN ∧
    (∀ (gdec : GcmDec) (st2 : SecState) (c : List Nat) (bs : Nat) (r : List Nat),
      (∀ k i ct tg out, gdec k i ct tg = some out → out.length = ct.length) →
      sec_decryptD2DMessage gdec st2 c bs = some r →
      r.length + D2D_OVERHEAD = c.length) := by
  have henc : sec_encryptD2DMessage genc iv st plaintext bufferSize =
      some (iv ++ (genc st.decrypted_d2d_key iv plaintext).1 ++
        (genc st.decrypted_d2d_key iv plaintext).2) := by
    unfold sec_encryptD2DMessage
    rw [hlog, hpair]
    simp only [Bool.not_true, Bool.or_self, Bool.false_eq_true, if_false]
    rw [if_neg (by omega)]
  refine ⟨henc, ?_, rfl, ?_⟩
  · intro out hout
    rw [henc] at hout
    injection hout with hout
    subst hout
    simp [List.length_append, hct, htag, hiv]
    have : D2D_OVERHEAD = IV_LEN + TAG_LEN := rfl
    omega
  · intro gdec st2 c bs r hlen hdec
    have hD : D2D_OVERHEAD = 20 := rfl
    have hIV : IV_LEN = 12 := rfl
    unfold sec_decryptD2DMessage at hdec
    split at hdec
    · cases hdec
    · split at hdec
      · cases hdec
      · rename_i hshort
        simp only [] at hdec
        split at hdec
        · cases hdec
        · have hr := hlen _ _ _ _ _ hdec
          rw [List.length_take, List.length_drop] at hr
          omega

/-- Witness for C2 at a concrete state and oracle. -/
theorem sec_encryptD2DMessage_layout_witness :
    sec_encryptD2DMessage (fun _ _ pt => (pt, List.replicate 8 0))
      (List.replicate 12 9)
      { is_initialized := true, is_logged_in := true, is_paired := true,
        password_hash := [], password_salt := [], encrypted_d2d_key := [],
        decrypted_d2d_key := [], wrapping_key := [], nvm_salt := [], nvm_hash := [],
        nvm_d2d_key := none } [1, 2] 100 =
      some (List.replicate 12 9 ++ [1, 2] ++ List.replicate 8 0) ∧
    (∀ out, sec_encryptD2DMessage (fun _ _ pt => (pt, List.replicate 8 0))
      (List.replicate 12 9)
      { is_initialized := true, is_logged_in := true, is_paired := true,
        password_hash := [], password_salt := [], encrypted_d2d_key := [],
        decrypted_d2d_key := [], wrapping_key := [], nvm_salt := [], nvm_hash := [],
        nvm_d2d_key := none } [1, 2] 100 = some out → out.length = 2 + D2D_OVERHEAD) ∧
    D2D_OVERHEAD = IV_LEN + TAG_LEN ∧
    (∀ (gdec : GcmDec) (st2 : SecState) (c : List Nat) (bs : Nat) (r : List Nat),
      (∀ k i ct tg out, gdec k i ct tg = some out → out.length = ct.length) →
      sec_decryptD2DMessage gdec st2 c bs = some r →
      r.length + D2D_OVERHEAD = c.length) :=
  sec_encryptD2DMessage_layout (fun _ _ pt => (pt, List.replicate 8 0))
    (List.replicate 12 9)
    { is_initialized := true, is_logged_in := true, is_paired := true,
      password_hash := [], password_salt := [], encrypted_d2d_key := [],
      decrypted_d2d_key := [], wrapping_key := [], nvm_salt := [], nvm_hash := [],
      nvm_d2d_key := none } [1, 2] 100 rfl rfl (by decide) (by decide) rfl rfl

/-- C5 counterexample: a logged-in, paired state whose in-RAM group key
is all-ones, fed a 20-character string whose 19th character is `','`
(outside the alphabet): `sec_log_key` returns false — but the in-RAM
group key is overwritten with zeros, not left unchanged, refuting the
"unchanged group key" part of the claim. -/
theorem sec_log_key_mutates_ram_key :
    (sec_log_key (fun _ _ pt => (pt, List.replicate 16 0))
      { is_initialized := true, is_logged_in := true, is_paired := true,
        password_hash := [], password_salt := List.replicate 16 0,
        encrypted_d2d_key := List.replicate 32 0,
        decrypted_d2d_key := List.replicate 16 1, wrapping_key := List.replicate 32 0,
        nvm_salt := [], nvm_hash := [], nvm_d2d_key := some (List.replicate 32 0) }
      [48, 48, 48, 48, 48, 48, 48, 48, 48, 48,
       48, 48, 48, 48, 48, 48, 48, 48, 44, 48]).1 = false ∧
    (sec_log_key (fun _ _ pt => (pt, List.replicate 16 0))
      { is_initialized := true, is_logged_in := true, is_paired := true,
        password_hash := [], password_salt := List.replicate 16 0,
        encrypted_d2d_key := List.replicate 32 0,
        decrypted_d2d_key := List.replicate 16 1, wrapping_key := List.replicate 32 0,
        nvm_salt := [], nvm_hash := [], nvm_d2d_key := some (List.replicate 32 0) }
      [48, 48, 48, 48, 48, 48, 48, 48, 48, 48,
       48, 48, 48, 48, 48, 48, 48, 48, 44, 48]).2.decrypted_d2d_key ≠
      List.replicate 16 1 := by
  constructor
  · decide
  · decide

/-- C5 (amended): a failed `sec_log_key` on a malformed 20-character
string leaves everything unchanged except the in-RAM group key, which
is overwritten with 16 zero bytes — the persisted encrypted-group-key
blob and the paired flag are untouched, but the RAM key is cleared, not
preserved. -/
theorem sec_log_key_bad_alphabet (genc : GcmEnc) (st : SecState) (input : List Nat)
    (c : Nat) (hlog : st.is_logged_in = true) (hlen : input.length = 20)
    (hc : c ∈ input) (hbad : z85_index c = none) :
    sec_log_key genc st input =
      (false, { st with decrypted_d2d_key := List.replicate 16 0 }) := by
  unfold sec_log_key
  rw [hlog]
  simp only [Bool.not_true, Bool.false_or]
  rw [if_neg (by simp [hlen])]
  rw [z85_decode20_none input hlen c hc hbad]

/-- Witness for C5's amended statement at the counterexample's inputs. -/
theorem sec_log_key_bad_alphabet_witness :
    sec_log_key (fun _ _ pt => (pt, List.replicate 16 0))
      { is_initialized := true, is_logged_in := true, is_paired := true,
        password_hash := [], password_salt := List.replicate 16 0,
        encrypted_d2d_key := List.replicate 32 0,
        decrypted_d2d_key := List.replicate 16 1, wrapping_key := List.replicate 32 0,
        nvm_salt := [], nvm_hash := [], nvm_d2d_key := some (List.replicate 32 0) }
      [48, 48, 48, 48, 48, 48, 48, 48, 48, 48,
       48, 48, 48, 48, 48, 48, 48, 48, 44, 48] =
      (false,
       { is_initialized := true, is_logged_in := true, is_paired := true,
         password_hash := [], password_salt := List.replicate 16 0,
         encrypted_d2d_key := List.replicate 32 0,
         decrypted_d2d_key := List.replicate 16 0, wrapping_key := List.replicate 32 0,
         nvm_salt := [], nvm_hash := [], nvm_d2d_key := some (List.replicate 32 0) }) :=
  sec_log_key_bad_alphabet (fun _ _ pt => (pt, List.replicate 16 0))
    { is_initialized := true, is_logged_in := true, is_paired := true,
      password_hash := [], password_salt := List.replicate 16 0,
      encrypted_d2d_key := List.replicate 32 0,
      decrypted_d2d_key := List.replicate 16 1, wrapping_key := List.replicate 32 0,
      nvm_salt := [], nvm_hash := [], nvm_d2d_key := some (List.replicate 32 0) }
    [48, 48, 48, 48, 48, 48, 48, 48, 48, 48,
     48, 48, 48, 48, 48, 48, 48, 48, 44, 48] 44 rfl (by decide) (by decide) (by decide)

/-- C7: every acknowledgement builder copies the request's 4-byte
correlation tag (offsets 8-11) into offsets 8-11 of the reply, byte for
byte, for every request buffer, flag value, device table and security
state. -/
theorem ack_builders_echo_correlation_tag (p : List Nat) (pf sf : Bool)
    (deviceIDList : List Nat) (st : SecState) :
    ((build_CACK_packet p).drop 8).take 4 =
      [p.getD 8 0, p.getD 9 0, p.getD 10 0, p.getD 11 0] ∧
    ((build_PWAK_packet p pf).drop 8).take 4 =
      [p.getD 8 0, p.getD 9 0, p.getD 10 0, p.getD 11 0] ∧
    ((build_DCAK_packet p).drop 8).take 4 =
      [p.getD 8 0, p.getD 9 0, p.getD 10 0, p.getD 11 0] ∧
    ((build_SPAK_packet p sf).drop 8).take 4 =
      [p.getD 8 0, p.getD 9 0, p.getD 10 0, p.getD 11 0] ∧
    ((build_SACK_packet p).drop 8).take 4 =
      [p.getD 8 0, p.getD 9 0, p.getD 10 0, p.getD 11 0] ∧
    ((build_SNAK_packet p).drop 8).take 4 =
      [p.getD 8 0, p.getD 9 0, p.getD 10 0, p.getD 11 0] ∧
    ((build_EPAK_packet p).drop 8).take 4 =
      [p.getD 8 0, p.getD 9 0, p.getD 10 0, p.getD 11 0] ∧
    ((build_SCAK_packet p deviceIDList).drop 8).take 4 =
      [p.getD 8 0, p.getD 9 0, p.getD 10 0, p.getD 11 0] ∧
    ((build_GPAK_packet p st).drop 8).take 4 =
      [p.getD 8 0, p.getD 9 0, p.getD 10 0, p.getD 11 0] :=
  ⟨rfl, rfl, rfl, rfl, rfl, rfl, rfl, rfl, rfl⟩

set_option maxRecDepth 32768 in
/-- C1 (end-marker slip): a 16-byte CONN frame whose start marker,
declared length and CRC are all correct, but whose end marker is
`0x56 0x00` instead of `0x56 0x78`, is dispatched rather than dropped:
the end-byte check `p[n-2] != 0x56 && p[n-1] != 0x78` only rejects
frames in which BOTH end bytes are wrong. -/
theorem end_marker_check_accepts_bad_frame :
    handle_message_from_computer
      [0x12, 0x34, 0x00, 0x10, 0x43, 0x4F, 0x4E, 0x4E,
       0xAA, 0xBB, 0xCC, 0xDD, 0xCB, 0x17, 0x56, 0x00] = .handled CONN_TAG ∧
    ¬([0x12, 0x34, 0x00, 0x10, 0x43, 0x4F, 0x4E, 0x4E,
       0xAA, 0xBB, 0xCC, 0xDD, 0xCB, 0x17, 0x56, 0x00].getD 14 0 = 0x56 ∧
      [0x12, 0x34, 0x00, 0x10, 0x43, 0x4F, 0x4E, 0x4E,
       0xAA, 0xBB, 0xCC, 0xDD, 0xCB, 0x17, 0x56, 0x00].getD 15 0 = 0x78) := by
  constructor
  · decide
  · decide

/-- C8: a frame that passes validation (is not dropped) and whose 4-byte
type tag matches none of the nine registered handlers is answered with
the raw `"FAIL"` bytes on the computer channel — the dispatcher neither
drops it silently nor escapes the if/else chain. -/
theorem unknown_tag_gets_fail_reply (p : List Nat)
    (hv : handle_message_from_computer p ≠ .drop)
    (hu : ∀ t ∈ REGISTERED_TAGS,
      message_type_match ((p.drop 4).take 4) t MESSAGE_TYPE_SIZE = false) :
    handle_message_from_computer p = .serialWrite FAIL_BYTES := by
  have h1 := hu CONN_TAG (by simp [REGISTERED_TAGS])
  have h2 := hu PASS_TAG (by simp [REGISTERED_TAGS])
  have h3 := hu DCON_TAG (by simp [REGISTERED_TAGS])
  have h4 := hu STPW_TAG (by simp [REGISTERED_TAGS])
  have h5 := hu SEND_TAG (by simp [REGISTERED_TAGS])
  have h6 := hu SNOD_TAG (by simp [REGISTERED_TAGS])
  have h7 := hu EPAR_TAG (by simp [REGISTERED_TAGS])
  have h8 := hu SCAN_TAG (by simp [REGISTERED_TAGS])
  have h9 := hu GPKY_TAG (by simp [REGISTERED_TAGS])
  unfold handle_message_from_computer at hv ⊢
  simp only [] at hv ⊢
  by_cases c1 : ¬(p.getD 0 0 = 0x12 ∧ p.getD 1 0 = 0x34)
  · rw [if_pos c1] at hv
    exact absurd rfl hv
  · rw [if_neg c1] at hv ⊢
    set n := (p.getD 2 0) <<< 8 ||| p.getD 3 0 with hn
    by_cases c2 : n ≠ p.length
    · rw [if_pos c2] at hv
      exact absurd rfl hv
    · rw [if_neg c2] at hv ⊢
      set crc := crc_16 ((p.drop 2).take (n - 6)) with hcrc
      by_cases c3 : (crc >>> 8) &&& 0xFF ≠ p.getD (n - 4) 0 ∨ crc &&& 0xFF ≠ p.getD (n - 3) 0
      · rw [if_pos c3] at hv
        exact absurd rfl hv
      · rw [if_neg c3] at hv ⊢
        by_cases c4 : p.getD (n - 2) 0 ≠ 0x56 ∧ p.getD (n - 1) 0 ≠ 0x78
        · rw [if_pos c4] at hv
          exact absurd rfl hv
        · rw [if_neg c4] at hv ⊢
          rw [if_neg (by simp [h1]), if_neg (by simp [h2]), if_neg (by simp [h3]),
              if_neg (by simp [h4]), if_neg (by simp [h5]), if_neg (by simp [h6]),
              if_neg (by simp [h7]), if_neg (by simp [h8]), if_neg (by simp [h9])]

set_option maxRecDepth 32768 in
/-- Witness for C8: a well-formed 16-byte frame with the unknown tag
`"ZZZZ"` and a correct checksum. -/
theorem unknown_tag_gets_fail_reply_witness :
    handle_message_from_computer
      [0x12, 0x34, 0x00, 0x10, 0x5A, 0x5A, 0x5A, 0x5A,
       0x01, 0x02, 0x03, 0x04, 0xB8, 0x36, 0x56, 0x78] ≠ .drop ∧
    (∀ t ∈ REGISTERED_TAGS,
      message_type_match (([0x12, 0x34, 0x00, 0x10, 0x5A, 0x5A, 0x5A, 0x5A,
        0x01, 0x02, 0x03, 0x04, 0xB8, 0x36, 0x56, 0x78].drop 4).take 4) t
        MESSAGE_TYPE_SIZE = false) ∧
    handle_message_from_computer
      [0x12, 0x34, 0x00, 0x10, 0x5A, 0x5A, 0x5A, 0x5A,
       0x01, 0x02, 0x03, 0x04, 0xB8, 0x36, 0x56, 0x78] = .serialWrite FAIL_BYTES :=
  ⟨by decide, by decide,
   unknown_tag_gets_fail_reply
     [0x12, 0x34, 0x00, 0x10, 0x5A, 0x5A, 0x5A, 0x5A,
      0x01, 0x02, 0x03, 0x04, 0xB8, 0x36, 0x56, 0x78] (by decide) (by decide)⟩

/-- C6: under any password for which the node is logged in (stored hash
and in-RAM wrapping key derived from that password), `generateKey`,
`logout`, `login(password)`, `exportExistingKey` succeeds end to end and
the export string decodes to exactly the 16 random bytes `generateKey`
drew — the key-wrap round-trip through the persisted encrypted blob.
The AEAD oracle hypotheses are GCM's contract: the wrap of `randKey`
has a 16-byte ciphertext, and unwrapping that blob with the same key
and IV returns `randKey`. -/
theorem generate_logout_login_export_roundtrip
    (hashFn : HashFn) (kdf : KdfFn) (genc : GcmEnc) (gdec : GcmDec)
    (st : SecState) (password randKey : List Nat) (bufferSize : Nat)
    (hinit : st.is_initialized = true)
    (hlog : st.is_logged_in = true)
    (hhash : hashFn st.password_salt password = st.password_hash)
    (hwrap : st.wrapping_key = kdf password st.password_salt)
    (hklen : randKey.length = 16) (hkbytes : AllBytes randKey)
    (hbuf : 20 < bufferSize)
    (hctlen : (genc st.wrapping_key (st.password_salt.take 12) randKey).1.length = 16)
    (hgcm : gdec (kdf password st.password_salt) (st.password_salt.take 12)
        (genc st.wrapping_key (st.password_salt.take 12) randKey).1
        (genc st.wrapping_key (st.password_salt.take 12) randKey).2 = some randKey) :
    (sec_generate_key genc randKey st bufferSize).1 = some (z85_encode16 randKey) ∧
    (sec_login hashFn kdf gdec
        (sec_logout (sec_generate_key genc randKey st bufferSize).2) password).1 = true ∧
    sec_display_key (sec_login hashFn kdf gdec
        (sec_logout (sec_generate_key genc randKey st bufferSize).2) password).2
      bufferSize = some (z85_encode16 randKey) ∧
    z85_decode20 (z85_encode16 randKey) = some randKey := by
  have hgen : sec_generate_key genc randKey st bufferSize =
      (some (z85_encode16 randKey),
       { st with decrypted_d2d_key := randKey,
                 encrypted_d2d_key :=
                   (genc st.wrapping_key (st.password_salt.take 12) randKey).1 ++
                   (genc st.wrapping_key (st.password_salt.take 12) randKey).2,
                 nvm_d2d_key := some
                   ((genc st.wrapping_key (st.password_salt.take 12) randKey).1 ++
                    (genc st.wrapping_key (st.password_salt.take 12) randKey).2),
                 is_paired := true }) := by
    unfold sec_generate_key sec_encrypt_and_save_d2d_key
    rw [hlog]
    simp [show ¬bufferSize ≤ 20 from by omega]
  have hlogout : sec_logout (sec_generate_key genc randKey st bufferSize).2 =
      { st with decrypted_d2d_key := List.replicate 16 0,
                wrapping_key := List.replicate 32 0,
                is_logged_in := false,
                encrypted_d2d_key :=
                  (genc st.wrapping_key (st.password_salt.take 12) randKey).1 ++
                  (genc st.wrapping_key (st.password_salt.take 12) randKey).2,
                nvm_d2d_key := some
                  ((genc st.wrapping_key (st.password_salt.take 12) randKey).1 ++
                   (genc st.wrapping_key (st.password_salt.take 12) randKey).2),
                is_paired := true } := by
    rw [hgen]
    rfl
  have hsplit_ct :
      ((genc st.wrapping_key (st.password_salt.take 12) randKey).1 ++
        (genc st.wrapping_key (st.password_salt.take 12) randKey).2).take 16 =
      (genc st.wrapping_key (st.password_salt.take 12) randKey).1 :=
    List.take_left' hctlen
  have hsplit_tg :
      ((genc st.wrapping_key (st.password_salt.take 12) randKey).1 ++
        (genc st.wrapping_key (st.password_salt.take 12) randKey).2).drop 16 =
      (genc st.wrapping_key (st.password_salt.take 12) randKey).2 :=
    List.drop_left' hctlen
  have hlogin : sec_login hashFn kdf gdec
      (sec_logout (sec_generate_key genc randKey st bufferSize).2) password =
      (true,
       { st with decrypted_d2d_key := randKey,
                 wrapping_key := kdf password st.password_salt,
                 is_logged_in := true,
                 encrypted_d2d_key :=
                   (genc st.wrapping_key (st.password_salt.take 12) randKey).1 ++
                   (genc st.wrapping_key (st.password_salt.take 12) randKey).2,
                 nvm_d2d_key := some
                   ((genc st.wrapping_key (st.password_salt.take 12) randKey).1 ++
                    (genc st.wrapping_key (st.password_salt.take 12) randKey).2),
                 is_paired := true }) := by
    rw [hlogout]
    unfold sec_login
    simp only [hinit, Bool.not_true, Bool.false_eq_true, if_false]
    rw [if_neg (by simp [hhash])]
    simp only [if_true]
    rw [hsplit_ct, hsplit_tg, hgcm]
  refine ⟨by rw [hgen], by rw [hlogin], ?_, z85_decode20_encode16 randKey hklen hkbytes⟩
  rw [hlogin]
  unfold sec_display_key
  simp [show ¬bufferSize ≤ 20 from by omega]

/-- Witness for C6 at concrete oracles, state, password and key. -/
theorem generate_logout_login_export_roundtrip_witness :
    let st0 : SecState :=
      { is_initialized := true, is_logged_in := true, is_paired := false,
        password_hash := [5], password_salt := List.replicate 16 0,
        encrypted_d2d_key := [], decrypted_d2d_key := [],
        wrapping_key := List.replicate 32 2, nvm_salt := [], nvm_hash := [],
        nvm_d2d_key := none }
    (sec_generate_key (fun _ _ pt => (pt, List.replicate 16 0)) (List.replicate 16 7)
      st0 21).1 = some (z85_encode16 (List.replicate 16 7)) ∧
    (sec_login (fun _ _ => [5]) (fun _ _ => List.replicate 32 2) (fun _ _ ct _ => some ct)
        (sec_logout (sec_generate_key (fun _ _ pt => (pt, List.replicate 16 0))
          (List.replicate 16 7) st0 21).2) []).1 = true ∧
    sec_display_key (sec_login (fun _ _ => [5]) (fun _ _ => List.replicate 32 2)
        (fun _ _ ct _ => some ct)
        (sec_logout (sec_generate_key (fun _ _ pt => (pt, List.replicate 16 0))
          (List.replicate 16 7) st0 21).2) []).2 21 =
      some (z85_encode16 (List.replicate 16 7)) ∧
    z85_decode20 (z85_encode16 (List.replicate 16 7)) = some (List.replicate 16 7) :=
  generate_logout_login_export_roundtrip (fun _ _ => [5])
    (fun _ _ => List.replicate 32 2) (fun _ _ pt => (pt, List.replicate 16 0))
    (fun _ _ ct _ => some ct)
    { is_initialized := true, is_logged_in := true, is_paired := false,
      password_hash := [5], password_salt := List.replicate 16 0,
      encrypted_d2d_key := [], decrypted_d2d_key := [],
      wrapping_key := List.replicate 32 2, nvm_salt := [], nvm_hash := [],
      nvm_d2d_key := none } [] (List.replicate 16 7) 21
    rfl rfl rfl rfl (by decide) (by decide) (by decide) (by decide) rfl

end LoComm
